import Mathlib

/-!
Verification development for the Laminar Data Plane Helm installer
(`install.py` and `_install_helpers/`).  The Python sources are embedded
shallowly: strings are `String`/`List Char`, dictionaries with known keys
become structures with `Option` fields, interactive input becomes an
explicit script of lines (`none` models a Ctrl-C / KeyboardInterrupt at
that prompt), and external commands (cloud CLIs, kubectl, subprocess
results) become explicit parameters of an `Env` record.
-/

/-! ## Character-list utilities (Python string primitives) -/

/-- Python `str.lstrip()`: drop leading whitespace. -/
def lstripD (l : List Char) : List Char := l.dropWhile Char.isWhitespace

/-- Python `str.rstrip()`: drop trailing whitespace. -/
def rstripD (l : List Char) : List Char :=
  (l.reverse.dropWhile Char.isWhitespace).reverse

/-- Python `str.strip()`: drop whitespace at both ends. -/
def pyStripD (l : List Char) : List Char := rstripD (lstripD l)

/-- Python `str.startswith(p)` on character lists. -/
def startsWithD : List Char → List Char → Bool
  | [], _ => true
  | _ :: _, [] => false
  | p :: ps, c :: cs => p == c && startsWithD ps cs

/-- Python `needle in hay` (substring containment) on character lists. -/
def subListD : List Char → List Char → Bool
  | needle, [] => needle.isEmpty
  | needle, c :: cs => startsWithD needle (c :: cs) || subListD needle cs

/-- Python `str.strip(chars)`: drop characters of `cs` at both ends. -/
def stripSetD (cs : List Char) (l : List Char) : List Char :=
  ((l.dropWhile (fun c => cs.contains c)).reverse.dropWhile
    (fun c => cs.contains c)).reverse

/-- Python `str.split('/')`: split on every slash, keeping empty chunks. -/
def splitSlash : List Char → List (List Char)
  | [] => [[]]
  | c :: t =>
    if c = '/' then [] :: splitSlash t
    else
      match splitSlash t with
      | [] => [[c]]
      | h :: r => (c :: h) :: r

/-- Python `str.lower()` on character lists (ASCII case folding). -/
def pyLowerD (l : List Char) : List Char := l.map Char.toLower

/-- Python `str.strip()` on `String`. -/
def pyStrip (s : String) : String := ⟨pyStripD s.data⟩

/-- Python `str.lower()` on `String`. -/
def pyLower (s : String) : String := ⟨pyLowerD s.data⟩

/-- Python `'\n'.join(lines)`; used to relate a file's raw text to its
line list (`splitlines` of the joined text gives back the lines for
newline-free lines). -/
def joinNl (lines : List (List Char)) : List Char :=
  (lines.intersperse ['\n']).flatten

/-! ## `yaml_utils._yaml_scalar` (encoder scalar rendering) -/

/-- The scalar values `_yaml_scalar` distinguishes: `bool` is tested
before `int` exactly as the Python `isinstance` chain does (Python
`bool` is a subtype of `int`, so the order matters there). -/
inductive Scalar where
  | bool (b : Bool)
  | int (n : Int)
  | str (s : String)
deriving Repr, DecidableEq

/-- `value.replace('\\', '\\\\')`: each backslash becomes two. -/
def escBackslash : List Char → List Char
  | [] => []
  | c :: t => (if c = '\\' then ['\\', '\\'] else [c]) ++ escBackslash t

/-- `value.replace('"', '\\"')`: each double quote gains a backslash. -/
def escQuote : List Char → List Char
  | [] => []
  | c :: t => (if c = '"' then ['\\', '"'] else [c]) ++ escQuote t

/-- The composed escaping of `_yaml_scalar`: backslashes first, then
double quotes. -/
def yamlEscape (l : List Char) : List Char := escQuote (escBackslash l)

/-- Conceptual unescaping of a YAML double-quoted scalar body: a
backslash makes the following character literal. -/
def unescapeD : List Char → List Char
  | [] => []
  | c :: rest =>
    if c = '\\' then
      match rest with
      | [] => []
      | c2 :: rest2 => c2 :: unescapeD rest2
    else c :: unescapeD rest

/-- `yaml_utils._yaml_scalar`: format a scalar for YAML output. -/
def yaml_scalar : Scalar → String
  | .bool b => if b then "true" else "false"
  | .int n => toString n
  | .str s =>
    if s = "" then "\"\""
    else "\"" ++ ⟨yamlEscape s.data⟩ ++ "\""

/-! ## `storage.construct_s3_endpoint` -/

/-- `storage.construct_s3_endpoint`: the S3-compatible endpoint URL for
a bucket. -/
def construct_s3_endpoint (cloud_provider bucket_name region : String) : String :=
  if cloud_provider = "aws" then
    "https://s3." ++ region ++ ".amazonaws.com/" ++ bucket_name ++ "/data/"
  else
    "https://storage.googleapis.com/" ++ bucket_name ++ "/data/"

/-! ## `storage.parse_existing_buckets` -/

/-- The dictionary `parse_existing_buckets` builds: key `'ch_bucket'`
maps to a string, and key `'s3_enabled'` is only ever assigned the
value `True`, so its presence is a plain flag. -/
structure Existing where
  chBucket : Option String
  s3Enabled : Bool
deriving Repr, DecidableEq

/-- Python truthiness of the `existing` dict: nonempty iff some key was
assigned. -/
def existingNonempty (e : Existing) : Bool := e.chBucket.isSome || e.s3Enabled

/-- The loop body of `parse_existing_buckets` for one line.  `prevRev`
is the list of lines before this one, nearest first, so `i > 0` is
`prevRev ≠ []` and `lines[max(0, i-5):i]` is `prevRev.take 5`. -/
def parseLine (prevRev : List String) (line : String) (acc : Existing) : Existing :=
  let stripped := pyStripD line.data
  if startsWithD "enabled:".data stripped && !prevRev.isEmpty then
    if (prevRev.take 5).any (fun cl => subListD "s3:".data cl.data) then
      if subListD "true".data stripped then { acc with s3Enabled := true }
      else acc
    else acc
  else if startsWithD "endpoint:".data stripped && !prevRev.isEmpty then
    -- stripped.split(':', 1)[1].strip().strip('"\'')
    let afterColon := (stripped.dropWhile (fun c => c ≠ ':')).drop 1
    let value := stripSetD ['"', '\''] (pyStripD afterColon)
    if !value.isEmpty &&
        (subListD "s3.".data value ||
          subListD "storage.googleapis.com".data value) then
      let parts := splitSlash value
      if 4 ≤ parts.length then { acc with chBucket := some ⟨parts.getD 3 []⟩ }
      else acc
    else acc
  else acc

/-- The indexed loop of `parse_existing_buckets` over the lines. -/
def parseGo (prevRev : List String) (acc : Existing) : List String → Existing
  | [] => acc
  | l :: ls => parseGo (l :: prevRev) (parseLine prevRev l acc) ls

/-- `storage.parse_existing_buckets` applied to the lines of
`laminar.yaml` (`content.splitlines()`). -/
def parse_existing_buckets (lines : List String) : Existing :=
  parseGo [] ⟨none, false⟩ lines

/-- `parse_existing_buckets` including the `VALUES_FILE.exists()` check:
a missing file yields the empty dictionary. -/
def parseExistingFile : Option (List String) → Existing
  | none => ⟨none, false⟩
  | some lines => parse_existing_buckets lines

/-! ## `yaml_utils.is_loadbalancer_disabled` -/

/-- The scanning loop of `is_loadbalancer_disabled`, tracking the
`in_data_plane_proxy` / `in_load_balancer` flags and the indent of the
`dataPlaneProxy:` line (initially `-1`). -/
def lbGo (inDPP inLB : Bool) (dppIndent : Int) : List String → Bool
  | [] => false
  | line :: rest =>
    let stripped := lstripD line.data
    if stripped.isEmpty || startsWithD "#".data stripped then
      lbGo inDPP inLB dppIndent rest
    else
      let indent : Int := (line.data.length : Int) - stripped.length
      -- if in_load_balancer and indent <= data_plane_indent: reset
      let lb1 := if inLB && decide (indent ≤ dppIndent) then false else inLB
      -- if in_data_plane_proxy and indent <= data_plane_indent: reset both
      let dpp1 := if inDPP && decide (indent ≤ dppIndent) then false else inDPP
      let lb2 := if inDPP && decide (indent ≤ dppIndent) then false else lb1
      if startsWithD "dataPlaneProxy:".data stripped then
        lbGo true lb2 indent rest
      else if dpp1 && startsWithD "loadBalancer:".data stripped then
        lbGo dpp1 true dppIndent rest
      else if lb2 && startsWithD "enabled:".data stripped then
        let afterColon := (stripped.dropWhile (fun c => c ≠ ':')).drop 1
        let value := stripSetD ['\'']
          (stripSetD ['"'] (pyLowerD (pyStripD afterColon)))
        decide (value = "false".data)
      else
        lbGo dpp1 lb2 dppIndent rest

/-- `yaml_utils.is_loadbalancer_disabled` on the line list of the
document (`yaml_content.splitlines()`). -/
def is_loadbalancer_disabled (lines : List String) : Bool :=
  lbGo false false (-1) lines

/-! ## `install.update_only` load-balancer classification -/

/-- The update-only path's load-balancer test (`install.py` line 66):
`'enabled: false' in content and 'loadBalancer:' in content` on the raw
file text. -/
def updateLbDisabled (content : List Char) : Bool :=
  subListD "enabled: false".data content && subListD "loadBalancer:".data content

/-! ## `kubernetes.get_recommended_storage_class` -/

/-- `kubernetes.get_recommended_storage_class`; the cluster's storage
classes (name, is-default) are the result of the external
`get_storage_classes` kubectl query, passed here explicitly. -/
def get_recommended_storage_class (cloud_provider : String)
    (storage_classes : List (String × Bool)) : Option String :=
  match storage_classes with
  | [] => none
  | (n0, _) :: _ =>
    match storage_classes.find? (fun nc => nc.2) with
    | some nc => some nc.1
    | none =>
      if cloud_provider = "aws" then
        match storage_classes.find?
            (fun nc => subListD "gp3".data (pyLowerD nc.1.data)) with
        | some nc => some nc.1
        | none =>
          match storage_classes.find?
              (fun nc => subListD "gp2".data (pyLowerD nc.1.data)) with
          | some nc => some nc.1
          | none => some n0
      else if cloud_provider = "gcp" then
        match storage_classes.find?
            (fun nc => subListD "ssd".data (pyLowerD nc.1.data)) with
        | some nc => some nc.1
        | none =>
          match storage_classes.find?
              (fun nc => subListD "standard".data (pyLowerD nc.1.data)) with
          | some nc => some nc.1
          | none => some n0
      else some n0

/-! ## Interactive input primitives (`input_utils.py`)

User input is a script of lines; a `none` entry is a Ctrl-C
(KeyboardInterrupt) raised at that `input()` call. -/

/-- The pending interactive input. -/
def Script : Type := List (Option String)

/-- Result of an input primitive: a value plus the unconsumed script, a
KeyboardInterrupt, or the model artifact of running out of script. -/
inductive InRes (α : Type) where
  | ok (a : α) (rest : List (Option String))
  | intr (rest : List (Option String))
  | exhausted
deriving Repr, DecidableEq

/-- `input_utils.get_input`: strip the line; empty input takes a truthy
default, re-prompts when required, and is returned as-is otherwise. -/
def getInput (dflt : Option String) (required : Bool) :
    List (Option String) → InRes String
  | [] => .exhausted
  | none :: r => .intr r
  | some v :: r =>
    let value := pyStrip v
    if value = "" then
      match dflt with
      | some d =>
        if d ≠ "" then .ok d r
        else if required then getInput dflt required r else .ok value r
      | none => if required then getInput dflt required r else .ok value r
    else .ok value r

/-- `input_utils.get_yes_no`: empty input takes the default; `y`/`yes`
and `n`/`no` (case-insensitive) decide; anything else re-prompts. -/
def getYesNo (dflt : Bool) : List (Option String) → InRes Bool
  | [] => .exhausted
  | none :: r => .intr r
  | some v :: r =>
    let response := pyLower (pyStrip v)
    if response = "" then .ok dflt r
    else if response = "y" ∨ response = "yes" then .ok true r
    else if response = "n" ∨ response = "no" then .ok false r
    else getYesNo dflt r

/-- `getpass.getpass`: one raw line, no stripping, no validation. -/
def getPass : List (Option String) → InRes String
  | [] => .exhausted
  | none :: r => .intr r
  | some v :: r => .ok v r

/-- Value of a nonempty all-digit character list. -/
def digitsVal : List Char → Option Nat
  | [] => none
  | l =>
    if l.all Char.isDigit then
      some (l.foldl (fun a c => a * 10 + (c.toNat - '0'.toNat)) 0)
    else none

/-- Python `int(value)` on an already-stripped string: an optional sign
followed by decimal digits; anything else raises ValueError (`none`). -/
def parsePyInt (s : String) : Option Int :=
  match s.data with
  | '-' :: rest => (digitsVal rest).map (fun n => -(n : Int))
  | '+' :: rest => (digitsVal rest).map (fun n => (n : Int))
  | l => (digitsVal l).map (fun n => (n : Int))

/-- The retry loop of `input_utils.get_int_input`; each iteration
consumes at least one script entry, so script length bounds the fuel. -/
def getIntInputGo (dflt : Option Int) (minV maxV : Option Int) :
    Nat → List (Option String) → InRes Int
  | 0, _ => .exhausted
  | fuel + 1, s =>
    match getInput (dflt.map toString) dflt.isNone s with
    | .intr r => .intr r
    | .exhausted => .exhausted
    | .ok value r =>
      if value = "" then
        match dflt with
        | some d => .ok d r
        | none => getIntInputGo dflt minV maxV fuel r
      else
        match parsePyInt value with
        | none => getIntInputGo dflt minV maxV fuel r
        | some n =>
          if (match minV with | some m => decide (n < m) | none => false) then
            getIntInputGo dflt minV maxV fuel r
          else if (match maxV with | some m => decide (m < n) | none => false) then
            getIntInputGo dflt minV maxV fuel r
          else .ok n r

/-- `input_utils.get_int_input`: validated integer input with optional
default and inclusive bounds. -/
def get_int_input (dflt : Option Int) (minV maxV : Option Int)
    (s : List (Option String)) : InRes Int :=
  getIntInputGo dflt minV maxV (s.length + 1) s

/-! ## The configuration model (`config` dictionary) -/

/-- The mutable `config` dictionary of `config.configure`, restricted to
the keys the storage step reads or writes; `none` is an absent key. -/
structure Config where
  cloud_provider : Option String := none
  cluster_name : Option String := none
  gcp_project_id : Option String := none
  region : Option String := none
  s3_enabled : Option Bool := none
  s3_use_env_creds : Option Bool := none
  s3_access_key : Option String := none
  s3_secret_key : Option String := none
  ch_bucket : Option String := none
  s3_endpoint : Option String := none
  s3_region : Option String := none
  gcs_access_key_id : Option String := none
  gcs_secret_key : Option String := none
  ch_storage_class : Option String := none
deriving Repr, DecidableEq, Inhabited

/-- Result of running a step: normal completion, a KeyboardInterrupt
escaping the step, script exhaustion (model artifact), `sys.exit`
(from `configure_bucket`), or an uncaught KeyError on a missing
config key.  The config is carried in every case because the Python
dictionary is mutated in place. -/
inductive StepRes where
  | done (c : Config) (rest : List (Option String))
  | intr (c : Config) (rest : List (Option String))
  | exhausted (c : Config)
  | exited (c : Config)
  | err (c : Config)
deriving Repr, DecidableEq

/-- Sequencing: continue with `k` on normal completion only. -/
def StepRes.andThen (r : StepRes) (k : Config → List (Option String) → StepRes) :
    StepRes :=
  match r with
  | .done c rest => k c rest
  | other => other

/-- External collaborators of the storage step: the persisted
`laminar.yaml` (as its line list; `none` = file missing), CLI
availability, subprocess/adapter outcomes, the cluster's storage
classes, and the random bucket-name suffix. -/
structure Env where
  fileLines : Option (List String)
  hasCloudCli : Bool
  createBucketOk : Bool
  awsPolicyOk : Bool
  gcsHmacKeys : Option (String × String)
  storageClasses : List (String × Bool)
  bucketSuffix : String
deriving Repr, DecidableEq

/-- Result of `storage.configure_bucket` (which does not touch the
config dictionary). -/
inductive BktRes where
  | ok (bucket : String) (rest : List (Option String))
  | intr (rest : List (Option String))
  | exhausted
  | exited
deriving Repr, DecidableEq

/-- `storage.configure_bucket`: prompt for a bucket name (with default),
optionally create the bucket via the cloud CLI, and `sys.exit(1)` when
creation failed and the user declines to continue. -/
def configure_bucket (env : Env) (default_name : String)
    (s : List (Option String)) : BktRes :=
  match getInput (some default_name) false s with
  | .intr r => .intr r
  | .exhausted => .exhausted
  | .ok bucket_name r =>
    if env.hasCloudCli then
      match getYesNo true r with
      | .intr r2 => .intr r2
      | .exhausted => .exhausted
      | .ok create r2 =>
        if create then
          if env.createBucketOk then .ok bucket_name r2
          else
            match getYesNo true r2 with
            | .intr r3 => .intr r3
            | .exhausted => .exhausted
            | .ok proceed r3 =>
              if proceed then .ok bucket_name r3 else .exited
        else .ok bucket_name r2
    else .ok bucket_name r

/-- The manual credential entry of `_configure_storage`: a required
Access Key ID via `get_input`, then the secret via `getpass` (which
accepts anything, including the empty string). -/
def promptS3Creds (c : Config) (s : List (Option String)) : StepRes :=
  match getInput none true s with
  | .intr r => .intr c r
  | .exhausted => .exhausted c
  | .ok ak r =>
    let c1 := { c with s3_access_key := some ak }
    match getPass r with
    | .intr r2 => .intr c1 r2
    | .exhausted => .exhausted c1
    | .ok sk r2 => .done { c1 with s3_secret_key := some sk } r2

/-- The keep-existing-bucket branch of `_configure_storage`
(`config.py` lines 162-180), entered when the user answered yes to
"Keep existing bucket configuration?". -/
def keep_existing (p : String) (ex : Existing) (c : Config)
    (s : List (Option String)) : StepRes :=
  if ex.s3Enabled then
    match c.region with
    | none => .err c
    | some reg =>
      let b := ex.chBucket.getD ""
      let c1 := { c with
        s3_enabled := some true,
        ch_bucket := some b,
        s3_endpoint := some (construct_s3_endpoint p b reg),
        s3_region := some reg }
      match getYesNo true s with
      | .intr r => .intr c1 r
      | .exhausted => .exhausted c1
      | .ok uec r =>
        let c2 := { c1 with s3_use_env_creds := some uec }
        if uec then .done c2 r
        else promptS3Creds c2 r
  else .done c s

/-- The tail of the fresh-configure branch after the credential mode is
settled: bucket prompt/creation, then endpoint derivation
(`config.py` lines 211-226). -/
def fresh_bucket (p : String) (ex : Existing) (env : Env) (c : Config)
    (s : List (Option String)) : StepRes :=
  let ch_bucket_default := ex.chBucket.getD ("lmnr-clickhouse-data-" ++ env.bucketSuffix)
  match configure_bucket env ch_bucket_default s with
  | .intr r => .intr c r
  | .exhausted => .exhausted c
  | .exited => .exited c
  | .ok bn r =>
    let c1 := { c with ch_bucket := some bn }
    match c.region with
    | none => .err c1
    | some reg =>
      .done { c1 with
        s3_endpoint := some (construct_s3_endpoint p bn reg),
        s3_region := some reg } r

/-- The fresh-configure branch of `_configure_storage` (`config.py`
lines 182-226), run when no existing configuration is kept. -/
def fresh_branch (p : String) (ex : Existing) (env : Env) (c : Config)
    (s : List (Option String)) : StepRes :=
  -- default = existing_buckets.get('s3_enabled', True); the parser only
  -- ever records True, so the default is True either way
  match getYesNo (if ex.s3Enabled then true else true) s with
  | .intr r => .intr c r
  | .exhausted => .exhausted c
  | .ok en r =>
    let c1 := { c with s3_enabled := some en }
    if en then
      match getYesNo true r with
      | .intr r2 => .intr c1 r2
      | .exhausted => .exhausted c1
      | .ok uec r2 =>
        let c2 := { c1 with s3_use_env_creds := some uec }
        if uec then fresh_bucket p ex env c2 r2
        else (promptS3Creds c2 r2).andThen (fresh_bucket p ex env)
    else .done c1 r

/-- The GCP-HMAC credential entry of `_setup_cloud_permissions`: a
required HMAC Access Key ID, the HMAC secret via `getpass`, then
`s3_use_env_creds = False`. -/
def promptGcsCreds (c : Config) (s : List (Option String)) : StepRes :=
  match getInput none true s with
  | .intr r => .intr c r
  | .exhausted => .exhausted c
  | .ok gk r =>
    let c1 := { c with gcs_access_key_id := some gk }
    match getPass r with
    | .intr r2 => .intr c1 r2
    | .exhausted => .exhausted c1
    | .ok gs r2 =>
      .done { c1 with
        gcs_secret_key := some gs,
        s3_use_env_creds := some false } r2

/-- `config._setup_cloud_permissions` (`config.py` lines 261-336):
IAM policy attachment on AWS (external, failure only warned about), or
HMAC key provisioning on GCP with manual fallback. -/
def setup_cloud_permissions (p : String) (env : Env) (c : Config)
    (s : List (Option String)) : StepRes :=
  match c.ch_bucket with
  | none => .err c
  | some _ =>
    if p = "aws" then
      match getYesNo true s with
      | .intr r => .intr c r
      | .exhausted => .exhausted c
      | .ok auto r =>
        if auto then
          match c.cluster_name, c.region with
          | some _, some _ => .done c r
          | _, _ => .err c
        else .done c r
    else
      match c.gcp_project_id with
      | none => .err c
      | some _ =>
        match getYesNo true s with
        | .intr r => .intr c r
        | .exhausted => .exhausted c
        | .ok auto r =>
          if auto then
            match env.gcsHmacKeys with
            | some kp =>
              .done { c with
                gcs_access_key_id := some kp.1,
                gcs_secret_key := some kp.2,
                s3_use_env_creds := some false } r
            | none =>
              -- if not config.get('s3_access_key') or not config.get('s3_secret_key')
              if c.s3_access_key.getD "" = "" ∨ c.s3_secret_key.getD "" = "" then
                promptGcsCreds c r
              else .done c r
          else
            match getYesNo false r with
            | .intr r2 => .intr c r2
            | .exhausted => .exhausted c
            | .ok useEx r2 =>
              if useEx then promptGcsCreds c r2 else .done c r2

/-- `config._configure_storage_class` (`config.py` lines 235-258):
take the recommended storage class, else prompt (empty input skips). -/
def configure_storage_class (p : String) (env : Env) (c : Config)
    (s : List (Option String)) : StepRes :=
  match get_recommended_storage_class p env.storageClasses with
  | some sc => .done { c with ch_storage_class := some sc } s
  | none =>
    match getInput none false s with
    | .intr r => .intr c r
    | .exhausted => .exhausted c
    | .ok v r =>
      if v ≠ "" then .done { c with ch_storage_class := some v } r
      else .done c r

/-- The tail of `_configure_storage` (`config.py` lines 228-232):
cloud-permissions sub-flow when S3 is enabled and the CLI is present,
then storage-class selection unconditionally. -/
def after_buckets (p : String) (env : Env) (c : Config)
    (s : List (Option String)) : StepRes :=
  if c.s3_enabled.getD false && env.hasCloudCli then
    (setup_cloud_permissions p env c s).andThen (configure_storage_class p env)
  else configure_storage_class p env c s

/-- `config._configure_storage` (`config.py` lines 139-232), the whole
storage step. -/
def configure_storage (env : Env) (c : Config)
    (s : List (Option String)) : StepRes :=
  match c.cloud_provider with
  | none => .err c
  | some p =>
    let existing := parseExistingFile env.fileLines
    if existingNonempty existing then
      match getYesNo true s with
      | .intr r => .intr c r
      | .exhausted => .exhausted c
      | .ok ue r =>
        if ue then (keep_existing p existing c r).andThen (after_buckets p env)
        else (fresh_branch p existing env c r).andThen (after_buckets p env)
    else
      (fresh_branch p existing env c s).andThen (after_buckets p env)

/-! ## `config._retry_on_interrupt` (the step retry harness) -/

/-- The `while True` loop of `_retry_on_interrupt`: run the step; on a
KeyboardInterrupt ask "Retry? (n to exit)" (default yes); on yes loop
again with the same step function and the config as the interrupted
execution left it (the dictionary is shared and mutated in place); on
no, or on a second Ctrl-C at the retry prompt, re-raise the
KeyboardInterrupt.  Each iteration consumes script entries, so script
length bounds the fuel. -/
def retryLoop (f : Config → List (Option String) → StepRes) :
    Nat → Config → List (Option String) → StepRes
  | 0, c, _ => .exhausted c
  | fuel + 1, c, s =>
    match f c s with
    | .intr c1 rest =>
      match getYesNo true rest with
      | .ok true rest' => retryLoop f fuel c1 rest'
      | .ok false rest' => .intr c1 rest'
      | .intr rest' => .intr c1 rest'
      | .exhausted => .exhausted c1
    | r => r

/-- `config._retry_on_interrupt` as used by `configure`. -/
def retry_on_interrupt (f : Config → List (Option String) → StepRes)
    (c : Config) (s : List (Option String)) : StepRes :=
  retryLoop f (s.length + 1) c s

/-! ## Derived definitions used in the statements below -/

/-- The exact condition under which one iteration of
`parse_existing_buckets` records `s3_enabled`: the trimmed line starts
with `enabled:`, it is not the first line, one of the five preceding
lines contains `s3:`, and `'true' in stripped` (a substring test, not
an equality on the value). -/
def trigBool (prevRev : List String) (line : String) : Bool :=
  startsWithD "enabled:".data (pyStripD line.data) && !prevRev.isEmpty
    && (prevRev.take 5).any (fun cl => subListD "s3:".data cl.data)
    && subListD "true".data (pyStripD line.data)

/-- The config as a step run leaves it (the Python dictionary is shared
and mutated in place, so every outcome carries one). -/
def stepCfg : StepRes → Config
  | .done c _ => c
  | .intr c _ => c
  | .exhausted c => c
  | .exited c => c
  | .err c => c

/-- A minimal interactive step for exercising the retry harness: it
reads one input; a Ctrl-C there leaves behind a partial mutation of
the config (as a real step's earlier in-place assignments would),
while a successful read completes with the config it received. -/
def stepPartial : Config → List (Option String) → StepRes
  | c, [] => .exhausted c
  | c, none :: rest => .intr { c with ch_bucket := some "partial" } rest
  | c, some _ :: rest => .done c rest

/-- §3 invariant fragment: whenever S3 is enabled, bucket, endpoint and
region are set and the endpoint is derived from provider, bucket and
region. -/
def endpointOk (p reg : String) (c : Config) : Prop :=
  c.s3_enabled = some true →
    c.ch_bucket.isSome = true
    ∧ c.s3_endpoint = some (construct_s3_endpoint p (c.ch_bucket.getD "") reg)
    ∧ c.s3_region = some reg

/-- §3 invariant fragment: explicit credentials accompany
`s3_use_env_creds = False` (one of the two provider-shaped pairs). -/
def credsOk (c : Config) : Prop :=
  c.s3_use_env_creds = some false →
    (c.s3_access_key.isSome = true ∧ c.s3_secret_key.isSome = true)
    ∨ (c.gcs_access_key_id.isSome = true ∧ c.gcs_secret_key.isSome = true)

/-- Example environment: no persisted `laminar.yaml`, no cloud CLI, a
cluster with one default storage class. -/
def envFresh : Env := ⟨none, false, true, true, none, [("gp2", true)], "abc123"⟩

/-- Example entry state of the storage step after steps 1-3 on AWS. -/
def cfgAws : Config := { cloud_provider := some "aws", region := some "us-east-1" }

/-- Script: enable S3, use IAM credentials, accept the default bucket
name. -/
def scriptIam : List (Option String) := [some "y", some "y", some ""]

/-- Script: enable S3, decline IAM, type an access key id, answer the
secret prompt with an empty line, accept the default bucket name. -/
def scriptEmptySecret : List (Option String) :=
  [some "y", some "n", some "AKIA", some "", some ""]

/-- Final config of the `scriptIam` run. -/
def cfgOutIam : Config := stepCfg (configure_storage envFresh cfgAws scriptIam)

/-- Final config of the `scriptEmptySecret` run. -/
def cfgOutEmptySecret : Config :=
  stepCfg (configure_storage envFresh cfgAws scriptEmptySecret)

/-- A document whose `loadBalancer` section is explicitly enabled while
an unrelated `s3` section is disabled. -/
def updateDoc : List String :=
  ["dataPlaneProxy:", "  loadBalancer:", "    enabled: true",
   "clickhouse:", "  s3:", "    enabled: false"]

/-! # Theorems -/

/-! ## Escaping round-trip (C5) -/

theorem escQuote_append (a b : List Char) :
    escQuote (a ++ b) = escQuote a ++ escQuote b := by
  induction a with
  | nil => rfl
  | cons c t ih => simp [escQuote, ih]

theorem unescapeD_cons_of_ne (c : Char) (rest : List Char) (h : ¬ c = '\\') :
    unescapeD (c :: rest) = c :: unescapeD rest := by
  cases rest with
  | nil => simp [unescapeD, h]
  | cons a l => simp [unescapeD, h]

theorem unescapeD_yamlEscape (l : List Char) : unescapeD (yamlEscape l) = l := by
  induction l with
  | nil => rfl
  | cons c t ih =>
    unfold yamlEscape at *
    rw [show escBackslash (c :: t) =
        (if c = '\\' then ['\\', '\\'] else [c]) ++ escBackslash t from rfl,
      escQuote_append]
    by_cases hb : c = '\\'
    · subst hb
      simp [escQuote, unescapeD, ih]
    · by_cases hq : c = '"'
      · subst hq
        simp [escQuote, unescapeD, ih]
      · rw [if_neg hb]
        rw [show escQuote [c] = [c] from by simp [escQuote, hq]]
        rw [List.singleton_append, unescapeD_cons_of_ne c _ hb, ih]

/-- Claim C5: `_yaml_scalar` renders a boolean as unquoted lowercase
`true`/`false`, an integer as its unquoted decimal form, the empty
string as `""`, and a non-empty string double-quoted with backslash
escaped first and then double quote; unescaping the escaped body
recovers the original string exactly. -/
theorem yaml_scalar_contract (b : Bool) (n : Int) (s : String) :
    yaml_scalar (.bool b) = (if b then "true" else "false")
    ∧ yaml_scalar (.int n) = toString n
    ∧ yaml_scalar (.str "") = "\"\""
    ∧ (s ≠ "" →
        yaml_scalar (.str s) = "\"" ++ String.mk (escQuote (escBackslash s.data)) ++ "\"")
    ∧ String.mk (unescapeD (yamlEscape s.data)) = s := by
  refine ⟨rfl, rfl, rfl, fun hs => ?_, ?_⟩
  · simp [yaml_scalar, hs, yamlEscape]
  · rw [unescapeD_yamlEscape]

/-- C5 witness: the contract evaluated on the string `a\"b` (a
backslash followed by a double quote inside), with the hypothesis of
the non-empty-string clause discharged. -/
theorem yaml_scalar_contract_witness :
    yaml_scalar (.str "a\\\"b") = "\"a\\\\\\\"b\""
    ∧ String.mk (unescapeD (yamlEscape "a\\\"b".data)) = "a\\\"b" := by
  have h := yaml_scalar_contract true 0 "a\\\"b"
  refine ⟨?_, h.2.2.2.2⟩
  rw [h.2.2.2.1 (by decide)]
  rfl

/-! ## Load-balancer-disabled detection (C6) -/

/-- Claim C6: `is_loadbalancer_disabled` reports disabled for the
document with `dataPlaneProxy:` at indent 0, `loadBalancer:` at
indent 2 and `enabled: false` at indent 4; the same document with
`enabled: true`, or with the inner `loadBalancer:` section omitted,
reports enabled (the default when the scoped `enabled:` key is never
found). -/
theorem loadbalancer_detection :
    is_loadbalancer_disabled
        ["dataPlaneProxy:", "  loadBalancer:", "    enabled: false"] = true
    ∧ is_loadbalancer_disabled
        ["dataPlaneProxy:", "  loadBalancer:", "    enabled: true"] = false
    ∧ is_loadbalancer_disabled
        ["dataPlaneProxy:", "    enabled: false"] = false := by
  refine ⟨by decide, by decide, by decide⟩

/-! ## Storage-class recommendation (C8) -/

/-- Claim C8: `get_recommended_storage_class` prefers a default class,
else provider-specific name patterns (`gp3` then `gp2` on aws, `ssd`
then `standard` on gcp, case-insensitive substring match), else the
first class, and returns none on an empty list; in particular
`["gp2", "gp3", "custom"]` with provider aws yields `gp3` and
`["standard", "pd-ssd"]` with provider gcp yields `pd-ssd`. -/
theorem storage_class_recommendation :
    get_recommended_storage_class "aws"
        [("gp2", false), ("gp3", false), ("custom", false)] = some "gp3"
    ∧ get_recommended_storage_class "gcp"
        [("standard", false), ("pd-ssd", false)] = some "pd-ssd"
    ∧ (∀ p, get_recommended_storage_class p [] = none)
    ∧ (∀ p cs nc, cs.find? (fun x => x.2) = some nc →
        get_recommended_storage_class p cs = some nc.1)
    ∧ get_recommended_storage_class "aws"
        [("standard", false), ("xgp2", false)] = some "xgp2"
    ∧ get_recommended_storage_class "gcp"
        [("foo", false), ("standard-rwo", false)] = some "standard-rwo"
    ∧ get_recommended_storage_class "other"
        [("a", false), ("b", false)] = some "a" := by
  refine ⟨by decide, by decide, fun p => rfl, ?_, by decide, by decide, by decide⟩
  intro p cs nc hf
  cases cs with
  | nil => simp at hf
  | cons hd t => simp [get_recommended_storage_class, hf]

/-- C8 witness: the default-class clause applied to a concrete list
with a marked default. -/
theorem storage_class_recommendation_witness :
    get_recommended_storage_class "aws" [("sc1", true), ("gp3x", false)] = some "sc1" :=
  storage_class_recommendation.2.2.2.1 "aws" [("sc1", true), ("gp3x", false)]
    ("sc1", true) (by decide)

/-! ## Update-only load-balancer classification (C10) -/

/-- Claim C10: in update-only mode the load balancer counts as disabled
exactly when the raw document text contains both the substring
`enabled: false` and the substring `loadBalancer:`, regardless of
nesting; on a document whose `loadBalancer` section says
`enabled: true` while an `s3` section says `enabled: false`, the
update flow classifies the load balancer as disabled even though the
scoped scanner `is_loadbalancer_disabled` reports it enabled. -/
theorem update_only_lb_detection :
    (∀ content : List Char, updateLbDisabled content =
      (subListD "enabled: false".data content && subListD "loadBalancer:".data content))
    ∧ updateLbDisabled (joinNl (updateDoc.map String.data)) = true
    ∧ is_loadbalancer_disabled updateDoc = false := by
  refine ⟨fun content => rfl, by decide, by decide⟩

/-! ## Bounded integer input (C9) -/

theorem getIntInputGo_ok_bounds (dflt : Option Int)
    (hd : ∀ d, dflt = some d → 1 ≤ d ∧ d ≤ 65535) :
    ∀ (fuel : Nat) (s : List (Option String)) (v : Int) (rest : List (Option String)),
      getIntInputGo dflt (some 1) (some 65535) fuel s = .ok v rest →
      1 ≤ v ∧ v ≤ 65535 := by
  intro fuel
  induction fuel with
  | zero => intro s v rest h; simp [getIntInputGo] at h
  | succ n ih =>
    intro s v rest h
    unfold getIntInputGo at h
    split at h
    · simp at h
    · simp at h
    · split at h
      · -- value is empty
        split at h
        · cases h
          exact hd _ rfl
        · exact ih _ _ _ h
      · -- value nonempty: parse, then range checks
        split at h
        · exact ih _ _ _ h
        · split at h
          · exact ih _ _ _ h
          · split at h
            · exact ih _ _ _ h
            · rename_i hmin hmax
              cases h
              simp at hmin hmax
              omega

/-- Claim C9: whenever `get_int_input` with bounds `[1, 65535]` (the
load-balancer port prompt) returns, the returned value lies within the
bounds; out-of-range or non-integer entries only cause local
re-prompting. -/
theorem get_int_input_port_bounds (dflt : Option Int) (s : List (Option String))
    (v : Int) (rest : List (Option String))
    (hd : ∀ d, dflt = some d → 1 ≤ d ∧ d ≤ 65535)
    (h : get_int_input dflt (some 1) (some 65535) s = .ok v rest) :
    1 ≤ v ∧ v ≤ 65535 :=
  getIntInputGo_ok_bounds dflt hd (s.length + 1) s v rest h

/-- C9 witness: with the port prompt's default 40080, the inputs 0 and
70000 and the non-integer `abc` are rejected locally (consumed by
re-prompting, never returned) and 40080 is accepted; the returned
value satisfies the bounds. -/
theorem get_int_input_port_bounds_witness :
    get_int_input (some 40080) (some 1) (some 65535)
        [some "0", some "70000", some "abc", some "40080"] = .ok 40080 []
    ∧ (1 ≤ (40080 : Int) ∧ (40080 : Int) ≤ 65535) :=
  ⟨by decide,
    get_int_input_port_bounds (some 40080)
      [some "0", some "70000", some "abc", some "40080"] 40080 []
      (fun d hdeq => by cases hdeq; exact ⟨by decide, by decide⟩)
      (by decide)⟩

/-! ## Bucket-recovery enabled flag (C4) -/

theorem parseLine_s3Enabled (pr : List String) (l : String) (acc : Existing) :
    (parseLine pr l acc).s3Enabled = (acc.s3Enabled || trigBool pr l) := by
  unfold parseLine trigBool
  by_cases h1 : (startsWithD "enabled:".data (pyStripD l.data) && !pr.isEmpty) = true
  · rw [if_pos h1]
    by_cases h2 : ((pr.take 5).any fun cl => subListD "s3:".data cl.data) = true
    · rw [if_pos h2]
      by_cases h3 : (subListD "true".data (pyStripD l.data)) = true
      · rw [if_pos h3]
        simp [h1, h2, h3]
      · rw [if_neg h3]
        simp only [Bool.not_eq_true] at h3
        simp [h3]
    · rw [if_neg h2]
      simp only [Bool.not_eq_true] at h2
      simp [h2]
  · rw [if_neg h1]
    simp only [Bool.not_eq_true] at h1
    rw [show (startsWithD "enabled:".data (pyStripD l.data) && !pr.isEmpty
        && ((pr.take 5).any fun cl => subListD "s3:".data cl.data)
        && subListD "true".data (pyStripD l.data)) = false by simp [h1]]
    rw [Bool.or_false]
    split
    · dsimp only
      split
      · split <;> rfl
      · rfl
    · rfl

theorem parseGo_s3Enabled (ls : List String) :
    ∀ (pr : List String) (acc : Existing),
      (parseGo pr acc ls).s3Enabled = true ↔
        (acc.s3Enabled = true ∨
          ∃ xs l ys, ls = xs ++ l :: ys ∧ trigBool (xs.reverse ++ pr) l = true) := by
  induction ls with
  | nil =>
    intro pr acc
    simp [parseGo]
  | cons hd tl ih =>
    intro pr acc
    rw [show parseGo pr acc (hd :: tl) = parseGo (hd :: pr) (parseLine pr hd acc) tl
      from rfl]
    rw [ih]
    rw [parseLine_s3Enabled]
    constructor
    · rintro (hacc | ⟨xs, l, ys, heq, htrig⟩)
      · rcases (Bool.or_eq_true _ _).mp hacc with h | h
        · exact Or.inl h
        · exact Or.inr ⟨[], hd, tl, rfl, by simpa using h⟩
      · refine Or.inr ⟨hd :: xs, l, ys, by rw [heq, List.cons_append], ?_⟩
        rw [List.reverse_cons, List.append_assoc]
        simpa using htrig
    · rintro (hacc | ⟨xs, l, ys, heq, htrig⟩)
      · exact Or.inl (by simp [hacc])
      · cases xs with
        | nil =>
          simp only [List.nil_append, List.cons.injEq] at heq
          obtain ⟨h1, h2⟩ := heq
          subst h1
          subst h2
          refine Or.inl ?_
          simp only [List.reverse_nil, List.nil_append] at htrig
          simp [htrig]
        | cons x xs' =>
          simp only [List.cons_append, List.cons.injEq] at heq
          obtain ⟨h1, h2⟩ := heq
          subst h1
          refine Or.inr ⟨xs', l, ys, h2, ?_⟩
          rw [List.reverse_cons, List.append_assoc] at htrig
          simpa using htrig

/-- Claim C4 (amended): `parse_existing_buckets` records `s3_enabled`
(always as True) exactly when some line other than the first has a
trimmed form starting with `enabled:` that contains `'true'` as a
substring, while one of the five preceding lines contains `s3:`
(`trigBool` is precisely that condition).  The original claim's
"the value is true" is in the code a substring test on the whole
trimmed line, so a value such as `untrue` also records the flag — see
the counterexample. -/
theorem parse_s3_enabled_rule (lines : List String) :
    (parse_existing_buckets lines).s3Enabled = true ↔
      ∃ xs l ys, lines = xs ++ l :: ys ∧ trigBool xs.reverse l = true := by
  unfold parse_existing_buckets
  rw [parseGo_s3Enabled]
  simp

/-- C4 counterexample: in the document `["s3:", "enabled: untrue"]` the
`enabled:` line's value (the text after the colon, before stripping)
is ` untrue`, which is not the value `true`, yet `s3_enabled` is
recorded because `'true'` occurs as a substring of `untrue`. -/
theorem parse_s3_enabled_rule_cex :
    (parse_existing_buckets ["s3:", "enabled: untrue"]).s3Enabled = true
    ∧ ((pyStripD "enabled: untrue".data).dropWhile (fun c => c ≠ ':')).drop 1
        = " untrue".data
    ∧ pyStripD " untrue".data ≠ "true".data := by
  exact ⟨by decide, by decide, by decide⟩

/-! ## Step retry harness (C2) -/

/-- Claim C2 (amended): when a step raises KeyboardInterrupt
mid-execution and the user confirms retry, `_retry_on_interrupt`
re-invokes only that same step from its beginning — but with the
configuration model in the state the interrupted partial execution
left it (the dictionary is shared and mutated in place; there is no
rollback to the state from before the step's first start).  If the
user declines, the KeyboardInterrupt propagates to the caller. -/
theorem retry_reenters_same_step
    (f : Config → List (Option String) → StepRes) (fuel : Nat)
    (c c1 : Config) (s rest : List (Option String))
    (hintr : f c s = .intr c1 rest) :
    (∀ rest', getYesNo true rest = .ok true rest' →
      retryLoop f (fuel + 1) c s = retryLoop f fuel c1 rest')
    ∧ (∀ rest', getYesNo true rest = .ok false rest' →
      retryLoop f (fuel + 1) c s = .intr c1 rest') := by
  constructor <;> intro rest' hyn <;> simp [retryLoop, hintr, hyn]

/-- C2 witness: a concrete interrupted step with a confirmed retry; the
harness re-invokes the step on the partially mutated config. -/
theorem retry_reenters_same_step_witness :
    retryLoop stepPartial 2 {} [none, some "y"] =
      retryLoop stepPartial 1 { ch_bucket := some "partial" } [] :=
  (retry_reenters_same_step stepPartial 1 {} { ch_bucket := some "partial" }
      [none, some "y"] [some "y"] rfl).1 [] rfl

/-- C2 counterexample: the step mutates `ch_bucket` and is then
interrupted; after the confirmed retry the step completes and returns
the config it was re-entered with — and that config still contains the
partial mutation, while the pre-step state had none.  This refutes the
claim that at re-entry the model is in the state from before the
step's first start. -/
theorem retry_state_rollback_cex :
    retry_on_interrupt stepPartial {} [none, some "y", some "go"] =
      .done { ch_bucket := some "partial" } []
    ∧ ({} : Config).ch_bucket = none := ⟨rfl, rfl⟩

/-! ## Endpoint round-trip (C1) -/

theorem lstripD_cons_of_not_ws (c : Char) (l : List Char) (h : c.isWhitespace = false) :
    lstripD (c :: l) = c :: l := by
  simp [lstripD, List.dropWhile_cons, h]

theorem rstripD_append_of_not_ws (l : List Char) (c : Char) (h : c.isWhitespace = false) :
    rstripD (l ++ [c]) = l ++ [c] := by
  simp [rstripD, List.reverse_append, List.dropWhile_cons, h]

theorem pyStripD_of_ends (c z : Char) (m : List Char)
    (hc : c.isWhitespace = false) (hz : z.isWhitespace = false) :
    pyStripD (c :: (m ++ [z])) = c :: (m ++ [z]) := by
  unfold pyStripD
  rw [lstripD_cons_of_not_ws _ _ hc]
  rw [show c :: (m ++ [z]) = (c :: m) ++ [z] from rfl]
  rw [rstripD_append_of_not_ws _ _ hz]

theorem splitSlash_append (xs ys : List Char) (h : '/' ∉ xs) :
    splitSlash (xs ++ '/' :: ys) = xs :: splitSlash ys := by
  induction xs with
  | nil => simp [splitSlash]
  | cons c t ih =>
    have hc : ¬ c = '/' := fun e => h (e ▸ List.mem_cons_self c t)
    have ht : '/' ∉ t := fun m => h (List.mem_cons_of_mem c m)
    rw [List.cons_append]
    rw [show splitSlash (c :: (t ++ '/' :: ys)) =
      (match splitSlash (t ++ '/' :: ys) with
        | [] => [[c]]
        | h :: r => (c :: h) :: r) from by simp [splitSlash, hc]]
    rw [ih ht]

theorem stripSetD_quotes_wrap (m : List Char) (h z : Char)
    (hm : m.head? = some h) (hlast : m.getLast? = some z)
    (hh : (['"', '\''].contains h) = false)
    (hz : (['"', '\''].contains z) = false) :
    stripSetD ['"', '\''] ('"' :: (m ++ ['"'])) = m := by
  obtain ⟨t, rfl⟩ : ∃ t, m = h :: t := by
    cases m with
    | nil => simp at hm
    | cons a t => simp at hm; exact ⟨t, by rw [hm]⟩
  obtain ⟨w, hw⟩ : ∃ w, (h :: t).reverse = z :: w := by
    have hr := List.head?_reverse (h :: t)
    rw [hlast] at hr
    cases hrev : (h :: t).reverse with
    | nil => rw [hrev] at hr; simp at hr
    | cons a w => rw [hrev] at hr; simp at hr; exact ⟨w, by rw [hr]⟩
  unfold stripSetD
  rw [show ('"' :: ((h :: t) ++ ['"'])).dropWhile (fun c => ['"', '\''].contains c)
      = (h :: t) ++ ['"'] from by
    rw [List.dropWhile_cons]
    simp only [List.cons_append, List.dropWhile_cons, hh]
    simp]
  rw [show ((h :: t) ++ ['"']).reverse = '"' :: (h :: t).reverse from by
    simp [List.reverse_append]]
  rw [List.dropWhile_cons]
  simp only [show (['"', '\''].contains '"') = true from rfl, if_true]
  rw [hw]
  rw [List.dropWhile_cons]
  rw [show (['"', '\''].contains z) = false from hz]
  simp only [Bool.false_eq_true, if_false]
  rw [← hw, List.reverse_reverse]

theorem startsWith_enabled_on_endpoint (X : List Char) :
    startsWithD "enabled:".data ("endpoint: \"".data ++ X) = false := rfl

theorem startsWith_endpoint_on_endpoint (X : List Char) :
    startsWithD "endpoint:".data ("endpoint: \"".data ++ X) = true := rfl

theorem afterColon_on_endpoint (X : List Char) :
    ((("endpoint: \"".data ++ X).dropWhile (fun c => c ≠ ':')).drop 1)
      = ' ' :: '"' :: X := rfl

theorem sub_s3_aws (Y : List Char) :
    subListD "s3.".data ("https://s3.".data ++ Y) = true := rfl

theorem sub_gcs (Y : List Char) :
    subListD "storage.googleapis.com".data
      ("https://storage.googleapis.com/".data ++ Y) = true := rfl

theorem splitSlash_aws_url (b reg : String) (hb : '/' ∉ b.data) (hreg : '/' ∉ reg.data) :
    splitSlash (construct_s3_endpoint "aws" b reg).data =
      ["https:".data, [], "s3.".data ++ reg.data ++ ".amazonaws.com".data,
        b.data, "data".data, []] := by
  have hu3 : (construct_s3_endpoint "aws" b reg).data =
      "https:".data ++ '/' :: '/' ::
        (("s3.".data ++ reg.data ++ ".amazonaws.com".data) ++ '/' ::
          (b.data ++ '/' :: ("data".data ++ ['/']))) := by
    rw [show construct_s3_endpoint "aws" b reg =
      "https://s3." ++ reg ++ ".amazonaws.com/" ++ b ++ "/data/" from rfl]
    simp [String.data_append, List.append_assoc]
  rw [hu3]
  rw [splitSlash_append "https:".data _ (by decide)]
  rw [show splitSlash ('/' ::
        (("s3.".data ++ reg.data ++ ".amazonaws.com".data) ++ '/' ::
          (b.data ++ '/' :: ("data".data ++ ['/'])))) =
      [] :: splitSlash
        (("s3.".data ++ reg.data ++ ".amazonaws.com".data) ++ '/' ::
          (b.data ++ '/' :: ("data".data ++ ['/']))) from by simp [splitSlash]]
  rw [splitSlash_append _ _ (by
    intro hmem
    rcases List.mem_append.mp hmem with hmem2 | hmem2
    · rcases List.mem_append.mp hmem2 with hmem3 | hmem3
      · simp at hmem3
      · exact hreg hmem3
    · simp at hmem2)]
  rw [splitSlash_append _ _ hb]
  rw [show ("data".data ++ ['/']) = "data".data ++ '/' :: [] from rfl]
  rw [splitSlash_append _ _ (by decide)]
  rfl

theorem splitSlash_gcp_url (b reg : String) (hb : '/' ∉ b.data) :
    splitSlash (construct_s3_endpoint "gcp" b reg).data =
      ["https:".data, [], "storage.googleapis.com".data, b.data, "data".data, []] := by
  have hu3 : (construct_s3_endpoint "gcp" b reg).data =
      "https:".data ++ '/' :: '/' ::
        ("storage.googleapis.com".data ++ '/' ::
          (b.data ++ '/' :: ("data".data ++ ['/']))) := by
    rw [show construct_s3_endpoint "gcp" b reg =
      "https://storage.googleapis.com/" ++ b ++ "/data/" from rfl]
    simp [String.data_append, List.append_assoc]
  rw [hu3]
  rw [splitSlash_append "https:".data _ (by decide)]
  rw [show splitSlash ('/' ::
        ("storage.googleapis.com".data ++ '/' ::
          (b.data ++ '/' :: ("data".data ++ ['/'])))) =
      [] :: splitSlash
        ("storage.googleapis.com".data ++ '/' ::
          (b.data ++ '/' :: ("data".data ++ ['/']))) from by simp [splitSlash]]
  rw [splitSlash_append _ _ (by decide)]
  rw [splitSlash_append _ _ hb]
  rw [show ("data".data ++ ['/']) = "data".data ++ '/' :: [] from rfl]
  rw [splitSlash_append _ _ (by decide)]
  rfl

theorem parseLine_endpoint_aws (pr : List String) (b reg : String) (acc : Existing)
    (hpr : pr ≠ []) (hb : '/' ∉ b.data) (hreg : '/' ∉ reg.data) :
    parseLine pr ("endpoint: \"" ++ construct_s3_endpoint "aws" b reg ++ "\"") acc
      = { acc with chBucket := some b } := by
  have hprb : (!pr.isEmpty) = true := by
    cases pr
    · exact absurd rfl hpr
    · rfl
  have hstrip : pyStripD ("endpoint: \"" ++ construct_s3_endpoint "aws" b reg ++ "\"").data
      = "endpoint: \"".data ++ ((construct_s3_endpoint "aws" b reg).data ++ ['"']) :=
    pyStripD_of_ends 'e' '"'
      ("ndpoint: \"".data ++ (construct_s3_endpoint "aws" b reg).data)
      (by decide) (by decide)
  have hlast : (construct_s3_endpoint "aws" b reg).data.getLast? = some '/' := by
    rw [show (construct_s3_endpoint "aws" b reg).data
        = ("https://s3." ++ reg ++ ".amazonaws.com/" ++ b).data ++ "/data/".data from rfl]
    rw [List.getLast?_append_of_ne_nil _ (by decide)]
    decide
  unfold parseLine
  dsimp only
  rw [hstrip]
  rw [startsWith_enabled_on_endpoint]
  simp only [Bool.false_and, Bool.false_eq_true, if_false]
  rw [startsWith_endpoint_on_endpoint]
  rw [hprb]
  simp only [Bool.and_self, if_true]
  rw [afterColon_on_endpoint]
  rw [show pyStripD (' ' :: '"' :: ((construct_s3_endpoint "aws" b reg).data ++ ['"']))
      = '"' :: ((construct_s3_endpoint "aws" b reg).data ++ ['"']) from by
    unfold pyStripD
    rw [show lstripD (' ' :: '"' :: ((construct_s3_endpoint "aws" b reg).data ++ ['"']))
        = '"' :: ((construct_s3_endpoint "aws" b reg).data ++ ['"']) from by
      simp [lstripD, List.dropWhile_cons]]
    exact rstripD_append_of_not_ws ('"' :: (construct_s3_endpoint "aws" b reg).data)
      '"' (by decide)]
  rw [show stripSetD ['"', '\''] ('"' :: ((construct_s3_endpoint "aws" b reg).data ++ ['"']))
      = (construct_s3_endpoint "aws" b reg).data from
    stripSetD_quotes_wrap _ 'h' '/' rfl hlast (by decide) (by decide)]
  rw [show (!(construct_s3_endpoint "aws" b reg).data.isEmpty &&
      (subListD "s3.".data (construct_s3_endpoint "aws" b reg).data ||
        subListD "storage.googleapis.com".data (construct_s3_endpoint "aws" b reg).data))
      = true from by
    rw [show subListD "s3.".data (construct_s3_endpoint "aws" b reg).data = true from
      sub_s3_aws (((reg.data ++ ".amazonaws.com/".data) ++ b.data) ++ "/data/".data)]
    rfl]
  simp only [if_true]
  rw [splitSlash_aws_url b reg hb hreg]
  rfl

theorem parseLine_endpoint_gcp (pr : List String) (b reg : String) (acc : Existing)
    (hpr : pr ≠ []) (hb : '/' ∉ b.data) :
    parseLine pr ("endpoint: \"" ++ construct_s3_endpoint "gcp" b reg ++ "\"") acc
      = { acc with chBucket := some b } := by
  have hprb : (!pr.isEmpty) = true := by
    cases pr
    · exact absurd rfl hpr
    · rfl
  have hstrip : pyStripD ("endpoint: \"" ++ construct_s3_endpoint "gcp" b reg ++ "\"").data
      = "endpoint: \"".data ++ ((construct_s3_endpoint "gcp" b reg).data ++ ['"']) :=
    pyStripD_of_ends 'e' '"'
      ("ndpoint: \"".data ++ (construct_s3_endpoint "gcp" b reg).data)
      (by decide) (by decide)
  have hlast : (construct_s3_endpoint "gcp" b reg).data.getLast? = some '/' := by
    rw [show (construct_s3_endpoint "gcp" b reg).data
        = ("https://storage.googleapis.com/" ++ b).data ++ "/data/".data from rfl]
    rw [List.getLast?_append_of_ne_nil _ (by decide)]
    decide
  unfold parseLine
  dsimp only
  rw [hstrip]
  rw [startsWith_enabled_on_endpoint]
  simp only [Bool.false_and, Bool.false_eq_true, if_false]
  rw [startsWith_endpoint_on_endpoint]
  rw [hprb]
  simp only [Bool.and_self, if_true]
  rw [afterColon_on_endpoint]
  rw [show pyStripD (' ' :: '"' :: ((construct_s3_endpoint "gcp" b reg).data ++ ['"']))
      = '"' :: ((construct_s3_endpoint "gcp" b reg).data ++ ['"']) from by
    unfold pyStripD
    rw [show lstripD (' ' :: '"' :: ((construct_s3_endpoint "gcp" b reg).data ++ ['"']))
        = '"' :: ((construct_s3_endpoint "gcp" b reg).data ++ ['"']) from by
      simp [lstripD, List.dropWhile_cons]]
    exact rstripD_append_of_not_ws ('"' :: (construct_s3_endpoint "gcp" b reg).data)
      '"' (by decide)]
  rw [show stripSetD ['"', '\''] ('"' :: ((construct_s3_endpoint "gcp" b reg).data ++ ['"']))
      = (construct_s3_endpoint "gcp" b reg).data from
    stripSetD_quotes_wrap _ 'h' '/' rfl hlast (by decide) (by decide)]
  rw [show (!(construct_s3_endpoint "gcp" b reg).data.isEmpty &&
      (subListD "s3.".data (construct_s3_endpoint "gcp" b reg).data ||
        subListD "storage.googleapis.com".data (construct_s3_endpoint "gcp" b reg).data))
      = true from by
    rw [show subListD "storage.googleapis.com".data
        (construct_s3_endpoint "gcp" b reg).data = true from
      sub_gcs (b.data ++ "/data/".data)]
    rw [Bool.or_true, Bool.and_true]
    rfl]
  simp only [if_true]
  rw [splitSlash_gcp_url b reg hb]
  rfl

theorem parseGo_append (xs ys : List String) :
    ∀ (pr : List String) (acc : Existing),
      parseGo pr acc (xs ++ ys) = parseGo (xs.reverse ++ pr) (parseGo pr acc xs) ys := by
  induction xs with
  | nil => intro pr acc; simp [parseGo]
  | cons l xs' ih =>
    intro pr acc
    rw [List.cons_append]
    rw [show parseGo pr acc (l :: (xs' ++ ys))
        = parseGo (l :: pr) (parseLine pr l acc) (xs' ++ ys) from rfl]
    rw [ih]
    rw [show parseGo pr acc (l :: xs') = parseGo (l :: pr) (parseLine pr l acc) xs'
        from rfl]
    rw [List.reverse_cons, List.append_assoc, List.singleton_append]

theorem parseLine_chBucket_of_no_endpoint (pr : List String) (l : String) (acc : Existing)
    (h : startsWithD "endpoint:".data (pyStripD l.data) = false) :
    (parseLine pr l acc).chBucket = acc.chBucket := by
  unfold parseLine
  dsimp only
  by_cases h1 : (startsWithD "enabled:".data (pyStripD l.data) && !pr.isEmpty) = true
  · rw [if_pos h1]
    split
    · split <;> rfl
    · rfl
  · rw [if_neg h1]
    rw [h]
    simp only [Bool.false_and, Bool.false_eq_true, if_false]

theorem parseGo_chBucket_of_no_endpoint (ys : List String) :
    ∀ (pr : List String) (acc : Existing),
      (∀ l ∈ ys, startsWithD "endpoint:".data (pyStripD l.data) = false) →
      (parseGo pr acc ys).chBucket = acc.chBucket := by
  induction ys with
  | nil => intro pr acc _; rfl
  | cons l ys' ih =>
    intro pr acc hall
    rw [show parseGo pr acc (l :: ys') = parseGo (l :: pr) (parseLine pr l acc) ys'
        from rfl]
    rw [ih _ _ (fun x hx => hall x (List.mem_cons_of_mem l hx))]
    exact parseLine_chBucket_of_no_endpoint pr l acc (hall l (List.mem_cons_self l ys'))

/-- Claim C1 (amended): for provider aws or gcp, a non-empty bucket
name without `/` and a region without `/`, writing the line
`endpoint: "<construct_s3_endpoint(provider, bucket, region)>"` into a
document and running `parse_existing_buckets` recovers `ch_bucket`
equal to exactly the original bucket name (the decoder strips the
quotes, splits on `/` and takes index 3) — provided the endpoint line
is not the document's first line (the scanner demands `i > 0`; see the
counterexample) and no later line's trimmed form starts with
`endpoint:` (a later endpoint line would overwrite the key). -/
theorem endpoint_roundtrip (provider b reg : String) (pre post : List String)
    (hprov : provider = "aws" ∨ provider = "gcp")
    (hbne : b ≠ "")
    (hb : '/' ∉ b.data) (hreg : '/' ∉ reg.data)
    (hpre : pre ≠ [])
    (hpost : ∀ l ∈ post, startsWithD "endpoint:".data (pyStripD l.data) = false) :
    (parse_existing_buckets
        (pre ++ ("endpoint: \"" ++ construct_s3_endpoint provider b reg ++ "\"") :: post)).chBucket
      = some b := by
  unfold parse_existing_buckets
  rw [parseGo_append]
  rw [show (("endpoint: \"" ++ construct_s3_endpoint provider b reg ++ "\"") :: post)
      = [("endpoint: \"" ++ construct_s3_endpoint provider b reg ++ "\"")] ++ post from rfl]
  rw [parseGo_append]
  rw [parseGo_chBucket_of_no_endpoint post _ _ hpost]
  rw [show parseGo (pre.reverse ++ [])
        (parseGo [] { chBucket := none, s3Enabled := false } pre)
        [("endpoint: \"" ++ construct_s3_endpoint provider b reg ++ "\"")]
      = parseLine (pre.reverse ++ [])
          ("endpoint: \"" ++ construct_s3_endpoint provider b reg ++ "\"")
          (parseGo [] { chBucket := none, s3Enabled := false } pre) from rfl]
  have hprnil : pre.reverse ++ [] ≠ [] := by
    simp only [List.append_nil]
    intro hcon
    exact hpre (by simpa using congrArg List.reverse hcon)
  rcases hprov with hp | hp
  · subst hp
    rw [parseLine_endpoint_aws _ b reg _ hprnil hb hreg]
  · subst hp
    rw [parseLine_endpoint_gcp _ b reg _ hprnil hb]

/-- C1 witness: the round-trip on a two-line document, aws provider,
bucket `mybucket`, region `us-east-1`. -/
theorem endpoint_roundtrip_witness :
    (parse_existing_buckets
        ["s3:",
          "endpoint: \"" ++ construct_s3_endpoint "aws" "mybucket" "us-east-1" ++ "\""]).chBucket
      = some "mybucket" :=
  endpoint_roundtrip "aws" "mybucket" "us-east-1" ["s3:"] []
    (Or.inl rfl) (by decide) (by decide) (by decide) (by decide) (by simp)

/-- C1 counterexample: a document that contains (only) the endpoint
line, with a valid provider/bucket/region: the scanner's `i > 0` guard
skips a first-line `endpoint:`, so nothing is recovered and the claim
as stated (over every document containing the line) fails. -/
theorem endpoint_roundtrip_cex :
    parse_existing_buckets
        ["endpoint: \"" ++ construct_s3_endpoint "aws" "mybucket" "us-east-1" ++ "\""]
      = { chBucket := none, s3Enabled := false }
    ∧ ("mybucket" : String) ≠ ""
    ∧ '/' ∉ "mybucket".data
    ∧ '/' ∉ "us-east-1".data := by
  refine ⟨by decide, by decide, by decide, by decide⟩

/-! ## Storage-step invariants (C3, C7) -/

theorem promptS3_done (c c' : Config) (s r : List (Option String))
    (h : promptS3Creds c s = .done c' r) :
    c' = { c with s3_access_key := c'.s3_access_key,
                  s3_secret_key := c'.s3_secret_key }
    ∧ c'.s3_access_key.isSome = true ∧ c'.s3_secret_key.isSome = true := by
  unfold promptS3Creds at h
  split at h
  · simp at h
  · simp at h
  · split at h
    · simp at h
    · simp at h
    · cases h
      exact ⟨rfl, rfl, rfl⟩

theorem promptGcs_done (c c' : Config) (s r : List (Option String))
    (h : promptGcsCreds c s = .done c' r) :
    c' = { c with gcs_access_key_id := c'.gcs_access_key_id,
                  gcs_secret_key := c'.gcs_secret_key,
                  s3_use_env_creds := some false }
    ∧ c'.gcs_access_key_id.isSome = true ∧ c'.gcs_secret_key.isSome = true := by
  unfold promptGcsCreds at h
  split at h
  · simp at h
  · simp at h
  · split at h
    · simp at h
    · simp at h
    · cases h
      exact ⟨rfl, rfl, rfl⟩

theorem sc_shape (p : String) (env : Env) (c c' : Config) (s r : List (Option String))
    (h : configure_storage_class p env c s = .done c' r) :
    c' = { c with ch_storage_class := c'.ch_storage_class } := by
  unfold configure_storage_class at h
  split at h
  · cases h
    rfl
  · split at h
    · simp at h
    · simp at h
    · split at h
      · cases h
        rfl
      · cases h
        rfl

theorem perms_done (p : String) (env : Env) (c c' : Config) (s r : List (Option String))
    (h : setup_cloud_permissions p env c s = .done c' r) :
    c' = { c with gcs_access_key_id := c'.gcs_access_key_id,
                  gcs_secret_key := c'.gcs_secret_key,
                  s3_use_env_creds := c'.s3_use_env_creds }
    ∧ (credsOk c → credsOk c') := by
  unfold setup_cloud_permissions at h
  split at h
  · simp at h
  · split at h
    · -- aws branch
      split at h
      · simp at h
      · simp at h
      · split at h
        · split at h
          · cases h
            exact ⟨rfl, fun hc => hc⟩
          · simp at h
        · cases h
          exact ⟨rfl, fun hc => hc⟩
    · -- gcp branch
      split at h
      · simp at h
      · split at h
        · simp at h
        · simp at h
        · split at h
          · -- auto_setup = true
            split at h
            · -- hmac keys present
              cases h
              refine ⟨rfl, fun _ => ?_⟩
              intro _
              exact Or.inr ⟨rfl, rfl⟩
            · -- hmac creation failed
              split at h
              · -- fall back to manual GCS credential entry
                obtain ⟨hsh, hak, hsk⟩ := promptGcs_done _ _ _ _ h
                refine ⟨by rw [hsh], fun _ => ?_⟩
                intro _
                exact Or.inr ⟨hak, hsk⟩
              · cases h
                exact ⟨rfl, fun hc => hc⟩
          · -- auto_setup = false
            split at h
            · simp at h
            · simp at h
            · split at h
              · obtain ⟨hsh, hak, hsk⟩ := promptGcs_done _ _ _ _ h
                refine ⟨by rw [hsh], fun _ => ?_⟩
                intro _
                exact Or.inr ⟨hak, hsk⟩
              · cases h
                exact ⟨rfl, fun hc => hc⟩

theorem fresh_bucket_done (p : String) (ex : Existing) (env : Env) (c c' : Config)
    (s r : List (Option String)) (h : fresh_bucket p ex env c s = .done c' r) :
    ∃ reg bn, c.region = some reg
      ∧ c' = { c with
          ch_bucket := some bn,
          s3_endpoint := some (construct_s3_endpoint p bn reg),
          s3_region := some reg } := by
  unfold fresh_bucket at h
  dsimp only at h
  split at h
  · simp at h
  · simp at h
  · simp at h
  · rename_i bn r2 heq
    split at h
    · simp at h
    · rename_i reg hreg
      cases h
      exact ⟨reg, bn, hreg, rfl⟩

theorem keep_done (p : String) (ex : Existing) (c c' : Config)
    (s r : List (Option String)) (h : keep_existing p ex c s = .done c' r) :
    (c' = c)
    ∨ (∃ reg b, c.region = some reg
        ∧ c'.cloud_provider = c.cloud_provider
        ∧ c'.region = c.region
        ∧ c'.s3_enabled = some true
        ∧ c'.ch_bucket = some b
        ∧ c'.s3_endpoint = some (construct_s3_endpoint p b reg)
        ∧ c'.s3_region = some reg
        ∧ credsOk c') := by
  unfold keep_existing at h
  split at h
  · split at h
    · simp at h
    · rename_i reg hreg
      split at h
      · simp at h
      · simp at h
      · rename_i uec r2 heq
        split at h
        · -- use IAM / env creds
          rename_i huec
          cases h
          refine Or.inr ⟨reg, ex.chBucket.getD "", hreg, rfl, rfl, rfl, rfl, rfl, rfl, ?_⟩
          intro hfalse
          simp [huec] at hfalse
        · -- manual credentials
          obtain ⟨hsh, hak, hsk⟩ := promptS3_done _ _ _ _ h
          refine Or.inr ⟨reg, ex.chBucket.getD "", hreg, by rw [hsh],
            by rw [hsh], by rw [hsh], by rw [hsh],
            by rw [hsh], by rw [hsh], ?_⟩
          intro _
          exact Or.inl ⟨hak, hsk⟩
  · cases h
    exact Or.inl rfl

theorem fresh_done (p : String) (ex : Existing) (env : Env) (c c' : Config)
    (s r : List (Option String)) (h : fresh_branch p ex env c s = .done c' r) :
    c'.cloud_provider = c.cloud_provider
    ∧ c'.region = c.region
    ∧ (c'.s3_enabled = some false
        ∨ (∃ reg b, c.region = some reg
            ∧ c'.s3_enabled = some true
            ∧ c'.ch_bucket = some b
            ∧ c'.s3_endpoint = some (construct_s3_endpoint p b reg)
            ∧ c'.s3_region = some reg))
    ∧ (credsOk c → credsOk c') := by
  unfold fresh_branch at h
  split at h
  · simp at h
  · simp at h
  · rename_i en r1 heq
    split at h
    · -- s3 enabled
      rename_i hen
      split at h
      · simp at h
      · simp at h
      · rename_i uec r2 heq2
        split at h
        · -- IAM / env creds
          rename_i huec
          obtain ⟨reg, bn, hreg, hsh⟩ := fresh_bucket_done _ _ _ _ _ _ _ h
          subst hsh
          refine ⟨rfl, rfl, Or.inr ⟨reg, bn, hreg, by simp [hen], rfl, rfl, rfl⟩, ?_⟩
          intro _ hfalse
          simp [huec] at hfalse
        · -- manual credentials, then bucket
          rename_i huec
          unfold StepRes.andThen at h
          dsimp only at h
          split at h
          · rename_i cm rm hpm
            obtain ⟨hshp, hak, hsk⟩ := promptS3_done _ _ _ _ hpm
            obtain ⟨reg, bn, hreg, hsh⟩ := fresh_bucket_done _ _ _ _ _ _ _ h
            subst hsh
            rw [hshp] at hreg ⊢
            refine ⟨rfl, rfl, Or.inr ⟨reg, bn, hreg, by simp [hen], rfl, rfl, rfl⟩, ?_⟩
            intro _ _
            exact Or.inl ⟨hak, hsk⟩
          · rename_i hne
            exact (hne c' r h).elim
    · -- s3 disabled
      rename_i hen
      cases h
      refine ⟨rfl, rfl, Or.inl (by simp [Bool.not_eq_true] at hen; rw [hen]), ?_⟩
      intro hc hfalse
      simp at hfalse
      exact hc hfalse

theorem after_done (p : String) (env : Env) (c c' : Config)
    (s r : List (Option String))
    (h : after_buckets p env c s = .done c' r) :
    c'.cloud_provider = c.cloud_provider
    ∧ c'.region = c.region
    ∧ c'.s3_enabled = c.s3_enabled
    ∧ c'.ch_bucket = c.ch_bucket
    ∧ c'.s3_endpoint = c.s3_endpoint
    ∧ c'.s3_region = c.s3_region
    ∧ (credsOk c → credsOk c') := by
  unfold after_buckets at h
  split at h
  · unfold StepRes.andThen at h
    split at h
    · rename_i cm rm hpm
      obtain ⟨hshp, hcredp⟩ := perms_done _ _ _ _ _ _ hpm
      have hshs := sc_shape _ _ _ _ _ _ h
      refine ⟨by rw [hshs, hshp], by rw [hshs, hshp], by rw [hshs, hshp],
        by rw [hshs, hshp], by rw [hshs, hshp], by rw [hshs, hshp], ?_⟩
      intro hc
      rw [hshs]
      exact hcredp hc
    · rename_i hne
      exact (hne c' r h).elim
  · have hshs := sc_shape _ _ _ _ _ _ h
    refine ⟨by rw [hshs], by rw [hshs], by rw [hshs],
      by rw [hshs], by rw [hshs], by rw [hshs], ?_⟩
    intro hc
    rw [hshs]
    exact hc

/-- Claim C3: in every branch of the storage step that completes, from
an entry state where the provider and region are set and `s3_enabled`
is not yet set, whenever `s3_enabled` is true at the end of the step
`ch_bucket`, `s3_endpoint` and `s3_region` are all set,
`s3_endpoint = construct_s3_endpoint(cloud_provider, ch_bucket,
region)` and `s3_region = region`; a recovered endpoint is re-derived,
never trusted verbatim. -/
theorem storage_endpoint_consistency (env : Env) (c : Config)
    (s : List (Option String)) (p reg : String) (c' : Config)
    (r : List (Option String))
    (hp : c.cloud_provider = some p) (hr : c.region = some reg)
    (hen : c.s3_enabled = none)
    (h : configure_storage env c s = .done c' r) :
    c'.cloud_provider = some p ∧ c'.region = some reg
    ∧ (c'.s3_enabled = some true →
        c'.ch_bucket.isSome = true
        ∧ c'.s3_endpoint = some (construct_s3_endpoint p (c'.ch_bucket.getD "") reg)
        ∧ c'.s3_region = some reg) := by
  unfold configure_storage at h
  rw [hp] at h
  dsimp only at h
  have hkeep : ∀ cm rm, keep_existing p (parseExistingFile env.fileLines) c rm = .done cm rm →
      True := fun _ _ _ => trivial
  clear hkeep
  split at h
  · -- existing nonempty
    split at h
    · simp at h
    · simp at h
    · rename_i ue r1 heq
      split at h
      · -- keep existing
        unfold StepRes.andThen at h
        split at h
        · rename_i cm rm hkm
          obtain ⟨hfp, hfr, hfen, hfb, hfe, hfg, _⟩ := after_done _ _ _ _ _ _ h
          rcases keep_done _ _ _ _ _ _ hkm with hsame | ⟨reg2, b2, hreg2, hkp, hkr, hken, hkb, hke, hkg, _⟩
          · subst hsame
            refine ⟨by rw [hfp, hp], by rw [hfr, hr], fun htrue => ?_⟩
            rw [hfen, hen] at htrue
            simp at htrue
          · have hre : reg2 = reg := by
              rw [hr] at hreg2
              injection hreg2 with hh
              exact hh.symm
            subst hre
            refine ⟨by rw [hfp, hkp, hp], by rw [hfr, hkr, hr], fun _ => ?_⟩
            refine ⟨by rw [hfb, hkb]; rfl, ?_, by rw [hfg, hkg]⟩
            rw [hfe, hke, hfb, hkb]
            rfl
        · rename_i hne
          exact (hne c' r h).elim
      · -- fresh branch
        unfold StepRes.andThen at h
        split at h
        · rename_i cm rm hfm
          obtain ⟨hfp, hfr, hfen, hfb, hfe, hfg, _⟩ := after_done _ _ _ _ _ _ h
          rcases (fresh_done _ _ _ _ _ _ _ hfm).2.2.1 with hoff | ⟨reg2, b2, hreg2, hken, hkb, hke, hkg⟩
          · refine ⟨by rw [hfp, (fresh_done _ _ _ _ _ _ _ hfm).1, hp],
              by rw [hfr, (fresh_done _ _ _ _ _ _ _ hfm).2.1, hr], fun htrue => ?_⟩
            rw [hfen, hoff] at htrue
            simp at htrue
          · have hre : reg2 = reg := by
              rw [hr] at hreg2
              injection hreg2 with hh
              exact hh.symm
            subst hre
            refine ⟨by rw [hfp, (fresh_done _ _ _ _ _ _ _ hfm).1, hp],
              by rw [hfr, (fresh_done _ _ _ _ _ _ _ hfm).2.1, hr], fun _ => ?_⟩
            refine ⟨by rw [hfb, hkb]; rfl, ?_, by rw [hfg, hkg]⟩
            rw [hfe, hke, hfb, hkb]
            rfl
        · rename_i hne
          exact (hne c' r h).elim
  · -- existing empty: fresh branch directly
    unfold StepRes.andThen at h
    split at h
    · rename_i cm rm hfm
      obtain ⟨hfp, hfr, hfen, hfb, hfe, hfg, _⟩ := after_done _ _ _ _ _ _ h
      rcases (fresh_done _ _ _ _ _ _ _ hfm).2.2.1 with hoff | ⟨reg2, b2, hreg2, hken, hkb, hke, hkg⟩
      · refine ⟨by rw [hfp, (fresh_done _ _ _ _ _ _ _ hfm).1, hp],
          by rw [hfr, (fresh_done _ _ _ _ _ _ _ hfm).2.1, hr], fun htrue => ?_⟩
        rw [hfen, hoff] at htrue
        simp at htrue
      · have hre : reg2 = reg := by
          rw [hr] at hreg2
          injection hreg2 with hh
          exact hh.symm
        subst hre
        refine ⟨by rw [hfp, (fresh_done _ _ _ _ _ _ _ hfm).1, hp],
          by rw [hfr, (fresh_done _ _ _ _ _ _ _ hfm).2.1, hr], fun _ => ?_⟩
        refine ⟨by rw [hfb, hkb]; rfl, ?_, by rw [hfg, hkg]⟩
        rw [hfe, hke, hfb, hkb]
        rfl
    · rename_i hne
      exact (hne c' r h).elim

/-- Claim C7 (amended): at the end of any complete run of the storage
step (including the cloud-permissions sub-flow) from an entry state
with `s3_use_env_creds` unset, whenever `s3_use_env_creds` is false
both fields of one of the two provider-shaped credential pairs
(`s3_access_key`/`s3_secret_key` or
`gcs_access_key_id`/`gcs_secret_key`) are present.  The original
claim's "non-empty" does not hold: secrets are read with
`getpass` and accepted verbatim, so an empty secret is stored — see
the counterexample. -/
theorem storage_creds_presence (env : Env) (c : Config)
    (s : List (Option String)) (c' : Config) (r : List (Option String))
    (hu : c.s3_use_env_creds = none)
    (h : configure_storage env c s = .done c' r) :
    c'.s3_use_env_creds = some false →
      (c'.s3_access_key.isSome = true ∧ c'.s3_secret_key.isSome = true)
      ∨ (c'.gcs_access_key_id.isSome = true ∧ c'.gcs_secret_key.isSome = true) := by
  have hcok : credsOk c := by
    intro hf
    rw [hu] at hf
    simp at hf
  unfold configure_storage at h
  cases hp : c.cloud_provider with
  | none => rw [hp] at h; simp at h
  | some p =>
    rw [hp] at h
    dsimp only at h
    split at h
    · split at h
      · simp at h
      · simp at h
      · rename_i ue r1 heq
        split at h
        · unfold StepRes.andThen at h
          split at h
          · rename_i cm rm hkm
            have hafter := (after_done _ _ _ _ _ _ h).2.2.2.2.2.2
            rcases keep_done _ _ _ _ _ _ hkm with hsame |
              ⟨_, _, _, _, _, _, _, _, _, hkc⟩
            · subst hsame
              exact hafter hcok
            · exact hafter hkc
          · rename_i hne
            exact (hne c' r h).elim
        · unfold StepRes.andThen at h
          split at h
          · rename_i cm rm hfm
            exact (after_done _ _ _ _ _ _ h).2.2.2.2.2.2
              ((fresh_done _ _ _ _ _ _ _ hfm).2.2.2 hcok)
          · rename_i hne
            exact (hne c' r h).elim
    · unfold StepRes.andThen at h
      split at h
      · rename_i cm rm hfm
        exact (after_done _ _ _ _ _ _ h).2.2.2.2.2.2
          ((fresh_done _ _ _ _ _ _ _ hfm).2.2.2 hcok)
      · rename_i hne
        exact (hne c' r h).elim

/-- C3 witness: the fresh-configure run `scriptIam` on AWS ends with a
consistent endpoint/bucket/region triple. -/
theorem storage_endpoint_consistency_witness :
    cfgOutIam.cloud_provider = some "aws" ∧ cfgOutIam.region = some "us-east-1"
    ∧ (cfgOutIam.ch_bucket.isSome = true
      ∧ cfgOutIam.s3_endpoint
          = some (construct_s3_endpoint "aws" (cfgOutIam.ch_bucket.getD "") "us-east-1")
      ∧ cfgOutIam.s3_region = some "us-east-1") := by
  have h := storage_endpoint_consistency envFresh cfgAws scriptIam "aws" "us-east-1"
    cfgOutIam [] rfl rfl rfl rfl
  exact ⟨h.1, h.2.1, h.2.2 rfl⟩

/-- C7 witness: the manual-credentials run `scriptEmptySecret` ends
with the s3 credential pair present. -/
theorem storage_creds_presence_witness :
    (cfgOutEmptySecret.s3_access_key.isSome = true
      ∧ cfgOutEmptySecret.s3_secret_key.isSome = true)
    ∨ (cfgOutEmptySecret.gcs_access_key_id.isSome = true
      ∧ cfgOutEmptySecret.gcs_secret_key.isSome = true) :=
  storage_creds_presence envFresh cfgAws scriptEmptySecret cfgOutEmptySecret []
    rfl rfl rfl

/-- C7 counterexample: a complete storage-step run in which the user
declines IAM and answers the `getpass` secret prompt with an empty
line: `s3_use_env_creds` is false and an access key id is present, but
the stored secret is the empty string, refuting "both ... non-empty".
-/
theorem storage_creds_presence_cex :
    configure_storage envFresh cfgAws scriptEmptySecret = .done cfgOutEmptySecret []
    ∧ cfgOutEmptySecret.s3_use_env_creds = some false
    ∧ cfgOutEmptySecret.s3_access_key = some "AKIA"
    ∧ cfgOutEmptySecret.s3_secret_key = some ""
    ∧ cfgOutEmptySecret.gcs_secret_key = none := ⟨rfl, rfl, rfl, rfl, rfl⟩
